import Mathlib

/-!
Verification of the certificate-mailer pipeline (src/main.py) against its
specification.  The Python source is shallowly embedded: strings are
`List Char`, file-system and network effects are explicit parameters
(does the template exist, does the SMTP step succeed), and the
orchestrator loop is a structural recursion that mirrors the
per-recipient try/except of `main`.
-/

namespace CertMailer

/-- Hard-coded constant `DEFAULT_FONT_SIZE = 80` from main.py. -/
def DEFAULT_FONT_SIZE : Nat := 80

/-- Hard-coded constant `TEXT_Y = 580` from main.py. -/
def TEXT_Y : Int := 580

/-- The allow-list of `re.sub(r"[^\w\-_(). ]", "", name)`: word characters
(modelled as ASCII alphanumerics plus underscore), dash, underscore,
parentheses, dot and space.  Every other character is removed. -/
def allowedChar (c : Char) : Bool :=
  c.isAlphanum || c = '_' || c = '-' || c = '(' || c = ')' || c = '.' || c = ' '

/-- Python `str.strip()`: drop whitespace from both ends. -/
def pyStrip (l : List Char) : List Char :=
  ((l.dropWhile Char.isWhitespace).reverse.dropWhile Char.isWhitespace).reverse

/-- `sanitize_filename` from main.py:
`safe = re.sub(r"[^\w\-_(). ]", "", name).strip()`, substitute
`"recipient"` when empty, and return `safe[:120]`. -/
def sanitize_filename (name : List Char) : List Char :=
  let safe := pyStrip (name.filter allowedChar)
  let safe1 := if safe = [] then "recipient".data else safe
  safe1.take 120

/-- Concrete input showing sanitization is not idempotent: a letter, 120
spaces, then a letter. Truncation to 120 characters leaves trailing
spaces, which a second pass strips. -/
def c5_ex : List Char := 'a' :: (List.replicate 120 ' ' ++ ['b'])

/-- Concrete witness input for the idempotence theorem. -/
def c5_wit : List Char := "Bob".data

/-- Concrete all-disallowed input for the fallback-token theorem. -/
def c6_wit : List Char := "///".data

/-- The return value of `find_font`: either a TrueType font loaded from a
candidate path at a given size (`ImageFont.truetype(p, size)`), or
Pillow's built-in default font (`ImageFont.load_default()`).  The two
Python classes `FreeTypeFont` and `ImageFont` form this tagged union. -/
inductive FontHandle where
  | truetype (path : String) (size : Nat)
  | builtin_default
deriving DecidableEq

/-- The hard-coded candidate font paths of `find_font`, in probe order. -/
def font_candidates : List String :=
  [ "/usr/share/fonts/truetype/dejavu/DejaVuSerif-Bold.ttf",
    "/usr/share/fonts/truetype/dejavu/DejaVuSans-Bold.ttf",
    "/usr/share/fonts/truetype/liberation/LiberationSerif-Bold.ttf",
    "/usr/share/fonts/truetype/freefont/FreeSerif.ttf",
    "/Library/Fonts/Arial.ttf",
    "C:\\Windows\\Fonts\\arial.ttf" ]

/-- `find_font` from main.py.  The environment maps each path to
(`Path(p).exists()`, `ImageFont.truetype(p, size)` succeeds); the loop
returns the first candidate that exists and loads, at the requested
size, and otherwise falls back to the built-in default font (the
returned size is `DEFAULT_FONT_SIZE` in that case). -/
def find_font (env : String → Bool × Bool) (preferred_size : Nat) :
    FontHandle × Nat :=
  match font_candidates.find? (fun p => (env p).1 && (env p).2) with
  | some p => (FontHandle.truetype p preferred_size, preferred_size)
  | none => (FontHandle.builtin_default, DEFAULT_FONT_SIZE)

/-- The horizontal offset of `write_text_on_image`:
`x = (img_width - text_width) / 2` (Python float division, exact on
the integer inputs involved, modelled as a rational). -/
def compute_x (img_width text_width : Int) : ℚ :=
  ((img_width : ℚ) - (text_width : ℚ)) / 2

/-- The text position computed by `write_text_on_image`: horizontal
centering, vertical position taken verbatim from `y_pos`. -/
def write_text_position (img_width text_width : Int) (y_pos : Int) :
    ℚ × Int :=
  (compute_x img_width text_width, y_pos)

/-- Observable side effects of the per-recipient pipeline. -/
inductive Event where
  | fileWritten (path : List Char)
  | emailSent (addr : List Char)
deriving DecidableEq

/-- The output path `OUTPUT_DIR / f"{safe_name}.png"` of
`write_text_on_image`. -/
def output_path (name : List Char) : List Char :=
  "output/".data ++ sanitize_filename name ++ ".png".data

/-- Effect-level model of `write_text_on_image`: the template-existence
guard is the first statement of the function, so when the template is
missing a `FileNotFoundError` is raised before any drawing and before
any file write (no event); otherwise the image is drawn and saved to
`output_path`.  The pixel contents of the image are abstracted away. -/
def write_text_on_image (template_exists : Bool) (name : List Char) :
    Except (List Char) (List Char) × List Event :=
  if template_exists then
    (Except.ok (output_path name), [Event.fileWritten (output_path name)])
  else
    (Except.error "Certificate template not found".data, [])

/-- Effect-level model of `send_email`: the SMTP session either delivers
the message or raises (connect/TLS/login/send failure), abstracted to a
single success flag; the connection-level detail is modelled separately
by `send_email_smtp`. -/
def send_email_run (smtp_ok : Bool) (addr : List Char) :
    Except (List Char) Unit × List Event :=
  if smtp_ok then (Except.ok (), [Event.emailSent addr])
  else (Except.error "SMTP failure".data, [])

/-- One iteration of the orchestrator loop in `main`: render then send
inside a try/except.  Any error raised by either step is caught here,
yields `false` (one failure), and never propagates. -/
def process_recipient (template_exists smtp_ok : Bool)
    (r : List Char × List Char) : Bool × List Event :=
  match write_text_on_image template_exists r.1 with
  | (Except.error _, evs) => (false, evs)
  | (Except.ok _, evs) =>
    match send_email_run smtp_ok r.2 with
    | (Except.error _, evs2) => (false, evs ++ evs2)
    | (Except.ok _, evs2) => (true, evs ++ evs2)

/-- The orchestrator loop of `main` over the recipient list, each
recipient paired with its environment (template present, SMTP success).
Returns (success_count, fail_count, emitted events). -/
def run_batch :
    List ((List Char × List Char) × Bool × Bool) → Nat × Nat × List Event
  | [] => (0, 0, [])
  | (r, te, so) :: rest =>
    let step := process_recipient te so r
    let acc := run_batch rest
    (if step.1 then acc.1 + 1 else acc.1,
     if step.1 then acc.2.1 else acc.2.1 + 1,
     step.2 ++ acc.2.2)

/-- SMTP session events of `send_email`. -/
inductive SmtpEvent where
  | connected
  | tls_started
  | logged_in
  | message_sent
  | quit
deriving DecidableEq

/-- Connection-level model of `send_email` from main.py:
`server = smtplib.SMTP(...)` opens the connection (it may itself raise,
in which case no connection exists); then `starttls`, `login`,
`send_message` run inside `try`, each of which may raise; the `finally`
block runs `server.quit()` on every exit path.  Returns (delivered,
session trace). -/
def send_email_smtp (connect_ok tls_ok login_ok send_ok : Bool) :
    Bool × List SmtpEvent :=
  if connect_ok then
    let body : Bool × List SmtpEvent :=
      if tls_ok then
        if login_ok then
          if send_ok then
            (true, [SmtpEvent.tls_started, SmtpEvent.logged_in,
                    SmtpEvent.message_sent])
          else (false, [SmtpEvent.tls_started, SmtpEvent.logged_in])
        else (false, [SmtpEvent.tls_started])
      else (false, [])
    (body.1, SmtpEvent.connected :: body.2 ++ [SmtpEvent.quit])
  else (false, [])

/-- `h.lower()` over a CSV cell. -/
def lowerCell (cell : List Char) : List Char := cell.map Char.toLower

/-- `h.lower() in ("name", "email")` from `read_recipients`. -/
def isHeaderCell (cell : List Char) : Bool :=
  (lowerCell cell == "name".data) || (lowerCell cell == "email".data)

/-- `not row or all(not cell.strip() for cell in row)`: a blank row. -/
def isBlankRow (row : List (List Char)) : Bool :=
  row.isEmpty || row.all (fun cell => (pyStrip cell).isEmpty)

/-- The loop body of `read_recipients` with the accumulated `items`
threaded through: skip blank rows; skip a row as a header when
`len(items) == 0` and some cell lowercases to "name"/"email"; skip rows
with fewer than two cells or an empty trimmed name/email; otherwise
append the trimmed (name, email) pair. -/
def readAux :
    List (List (List Char)) → List (List Char × List Char) →
    List (List Char × List Char)
  | [], items => items
  | row :: rest, items =>
    if isBlankRow row then readAux rest items
    else if items.isEmpty && row.any isHeaderCell then readAux rest items
    else
      match row with
      | c1 :: c2 :: _ =>
        let nm := pyStrip c1
        let em := pyStrip c2
        if nm.isEmpty || em.isEmpty then readAux rest items
        else readAux rest (items ++ [(nm, em)])
      | _ => readAux rest items

/-- `read_recipients` from main.py on an already-parsed row list. -/
def read_recipients (rows : List (List (List Char))) :
    List (List Char × List Char) :=
  readAux rows []

/-- The data-row handling of `read_recipients` in isolation (the
validity checks and the append), used to state what happens to a row
that is not discarded as a header. -/
def dataStep (row : List (List Char)) (items : List (List Char × List Char)) :
    List (List Char × List Char) :=
  match row with
  | c1 :: c2 :: _ =>
    let nm := pyStrip c1
    let em := pyStrip c2
    if nm.isEmpty || em.isEmpty then items else items ++ [(nm, em)]
  | _ => items

/-- Concrete CSV input refuting claim C3: the first row is invalid (one
cell) and contributes nothing, so the second row — not the first row of
the input — is still discarded by the header check. -/
def c3_rows : List (List (List Char)) :=
  [ [ "only".data ], [ "name".data, "a@b.c".data ] ]

/-- The configuration record of `load_config` (required keys). -/
structure Config where
  email : List Char
  app_password : List Char
  smtp_server : List Char
  smtp_port : Nat
deriving DecidableEq

/-- Does an `Except` hold an error? -/
def isErr {α β : Type} : Except α β → Bool
  | Except.error _ => true
  | Except.ok _ => false

/-- The setup phase and loop of `main`, returning
(exit code, success_count, fail_count).  A config-load failure or a
`read_recipients` failure prints and calls `sys.exit(1)`; an empty
recipient list prints and calls `sys.exit(0)`; a declined confirmation
exits 0; otherwise the batch runs and `main` returns normally (process
exit 0) whatever the per-recipient outcomes were. -/
def main_run (cfg : Except (List Char) Config)
    (recips : Except (List Char) (List (List Char × List Char)))
    (proceed : Bool)
    (envs : (List Char × List Char) → Bool × Bool) : Nat × Nat × Nat :=
  match cfg with
  | Except.error _ => (1, 0, 0)
  | Except.ok _ =>
    match recips with
    | Except.error _ => (1, 0, 0)
    | Except.ok rs =>
      if rs = [] then (0, 0, 0)
      else if proceed = false then (0, 0, 0)
      else
        let b := run_batch (rs.map (fun r => (r, (envs r).1, (envs r).2)))
        (0, b.1, b.2.1)

/-- A concrete configuration value for counterexamples. -/
def cfg0 : Config :=
  { email := "me@example.com".data,
    app_password := "pw".data,
    smtp_server := "smtp.example.com".data,
    smtp_port := 587 }

/-- The default body text of `send_email` when `body_text is None`.  In
the Python source the f-string uses `\\n` (a literal backslash followed
by the letter n), not `\n`. -/
def default_body (recipient_name : List Char) : List Char :=
  "Dear ".data ++ recipient_name ++
    (",\\nThank you for participating in the event. Your certificate of participation has been attached to this email.\\n\\nRegards,\\nNDITC").data

/-- The body text `send_email` attaches: the given `body_text`, or the
default when the argument is omitted (`None`). -/
def send_email_body (recipient_name : List Char)
    (body_text : Option (List Char)) : List Char :=
  match body_text with
  | some b => b
  | none => default_body recipient_name

/-- Does the list start with the given pattern? -/
def beginsWith : List Char → List Char → Bool
  | _, [] => true
  | [], _ :: _ => false
  | c :: cs, p :: ps => (c == p) && beginsWith cs ps

/-- Does the pattern occur contiguously anywhere in the list? -/
def containsSeq : List Char → List Char → Bool
  | [], pat => beginsWith [] pat
  | c :: cs, pat => beginsWith (c :: cs) pat || containsSeq cs pat

/- ------------------------------------------------------------------ -/
/- Helper lemmas about sanitize_filename                               -/
/- ------------------------------------------------------------------ -/

theorem mem_of_mem_dropWhile {p : Char → Bool} {l : List Char} {c : Char}
    (h : c ∈ l.dropWhile p) : c ∈ l := by
  induction l with
  | nil => simp [List.dropWhile] at h
  | cons x xs ih =>
    by_cases hx : p x = true
    · simp only [List.dropWhile, hx] at h
      exact List.mem_cons_of_mem _ (ih h)
    · simp only [List.dropWhile, hx] at h
      simpa using h

theorem mem_of_mem_pyStrip {l : List Char} {c : Char}
    (h : c ∈ pyStrip l) : c ∈ l := by
  unfold pyStrip at h
  rw [List.mem_reverse] at h
  have h2 := mem_of_mem_dropWhile h
  rw [List.mem_reverse] at h2
  exact mem_of_mem_dropWhile h2

theorem sanitize_chars_allowed (s : List Char) :
    ∀ c ∈ sanitize_filename s, allowedChar c = true := by
  intro c hc
  unfold sanitize_filename at hc
  simp only at hc
  have hc1 := List.take_subset _ _ hc
  by_cases hnil : pyStrip (s.filter allowedChar) = []
  · rw [if_pos hnil] at hc1
    have : ∀ c ∈ "recipient".data, allowedChar c = true := by decide
    exact this c hc1
  · rw [if_neg hnil] at hc1
    have := mem_of_mem_pyStrip hc1
    exact List.of_mem_filter this

theorem sanitize_length_le (s : List Char) :
    (sanitize_filename s).length ≤ 120 := by
  unfold sanitize_filename
  simp only
  exact (List.length_take _ _).le.trans (min_le_left _ _)

theorem sanitize_ne_nil (s : List Char) : sanitize_filename s ≠ [] := by
  unfold sanitize_filename
  simp only
  by_cases hnil : pyStrip (s.filter allowedChar) = []
  · rw [if_pos hnil]; decide
  · rw [if_neg hnil]
    obtain ⟨x, xs, hx⟩ := List.exists_cons_of_ne_nil hnil
    rw [hx]
    simp [List.take]

theorem sanitize_all_disallowed (s : List Char)
    (h : ∀ c ∈ s, allowedChar c = false) :
    sanitize_filename s = "recipient".data := by
  unfold sanitize_filename
  have hf : s.filter allowedChar = [] := by
    rw [List.filter_eq_nil_iff]
    intro a ha
    simp [h a ha]
  rw [hf]
  decide

/-- Claim C6: for every string, the sanitized filename has length at most
120 and is never empty, and an input all of whose characters are outside
the allow-list yields the fixed fallback token "recipient". -/
theorem sanitize_bounded_and_fallback (s : List Char) :
    (sanitize_filename s).length ≤ 120 ∧
    sanitize_filename s ≠ [] ∧
    ((∀ c ∈ s, allowedChar c = false) → sanitize_filename s = "recipient".data) :=
  ⟨sanitize_length_le s, sanitize_ne_nil s, sanitize_all_disallowed s⟩

/-- Witness for C6 at the concrete all-disallowed input "///". -/
theorem sanitize_bounded_and_fallback_witness :
    (sanitize_filename c6_wit).length ≤ 120 ∧
    sanitize_filename c6_wit ≠ [] ∧
    sanitize_filename c6_wit = "recipient".data :=
  ⟨(sanitize_bounded_and_fallback c6_wit).1,
   (sanitize_bounded_and_fallback c6_wit).2.1,
   (sanitize_bounded_and_fallback c6_wit).2.2 (by decide)⟩

/-- Counterexample to claim C5 as stated: sanitization is not idempotent
for every string.  For a letter followed by 120 spaces and a letter, the
first pass truncates to 120 characters and leaves 119 trailing spaces;
the second pass strips them. -/
theorem sanitize_not_idempotent :
    sanitize_filename (sanitize_filename c5_ex) ≠ sanitize_filename c5_ex := by
  decide

/-- Claim C5 (amended): sanitization is idempotent for every string whose
sanitized result carries no leading or trailing whitespace (truncation to
120 characters can expose trailing spaces, which a second application
removes). -/
theorem sanitize_idempotent_of_stripped (s : List Char)
    (h : pyStrip (sanitize_filename s) = sanitize_filename s) :
    sanitize_filename (sanitize_filename s) = sanitize_filename s := by
  have hall : (sanitize_filename s).filter allowedChar = sanitize_filename s :=
    List.filter_eq_self.mpr (sanitize_chars_allowed s)
  have hne : sanitize_filename s ≠ [] := sanitize_ne_nil s
  have hlen : (sanitize_filename s).length ≤ 120 := sanitize_length_le s
  conv_lhs => rw [sanitize_filename]
  simp only
  rw [hall, h, if_neg hne]
  exact List.take_of_length_le hlen

/-- Witness for the amended C5 at the concrete input "Bob". -/
theorem sanitize_idempotent_witness :
    sanitize_filename (sanitize_filename c5_wit) = sanitize_filename c5_wit :=
  sanitize_idempotent_of_stripped c5_wit (by decide)

/-- Claim C1: the orchestrator loop of `main` catches every error raised
by the render or send step at the per-recipient boundary (encoded by
`process_recipient` returning a total outcome), counts exactly one
failure or one success per recipient, continues with the rest, and at
the end success_count + fail_count equals the number of loaded
recipients.  Quantified over every recipient list and every choice of
per-recipient render/send outcomes. -/
theorem batch_counts_total
    (rs : List ((List Char × List Char) × Bool × Bool)) :
    (run_batch rs).1 + (run_batch rs).2.1 = rs.length := by
  induction rs with
  | nil => rfl
  | cons x rest ih =>
    obtain ⟨r, te, so⟩ := x
    simp only [run_batch, List.length_cons]
    cases hstep : (process_recipient te so r).1 <;> simp [hstep] <;> omega

/-- Claim C8: when the template image is missing, `write_text_on_image`
raises the missing-template error before any file write (no event), the
mailer is never invoked (no email event), the orchestrator counts
exactly one failure for that recipient, and the remaining recipients'
counts and events are unaffected. -/
theorem missing_template_isolated (r : List Char × List Char) (so : Bool)
    (rest : List ((List Char × List Char) × Bool × Bool)) :
    write_text_on_image false r.1 =
      (Except.error "Certificate template not found".data, []) ∧
    process_recipient false so r = (false, []) ∧
    (run_batch ((r, false, so) :: rest)).1 = (run_batch rest).1 ∧
    (run_batch ((r, false, so) :: rest)).2.1 = (run_batch rest).2.1 + 1 ∧
    (run_batch ((r, false, so) :: rest)).2.2 = (run_batch rest).2.2 := by
  refine ⟨rfl, rfl, ?_, ?_, ?_⟩ <;>
    simp [run_batch, process_recipient, write_text_on_image]

/-- Claim C2: the value returned by `find_font` distinguishes the
Fallback state from the Loaded state: in an environment where no
candidate font loads it returns the built-in default handle, which
differs from the handle returned in any environment where some
candidate loads, so a caller can detect that the fallback was taken. -/
theorem font_fallback_distinguishable
    (env1 env2 : String → Bool × Bool) (sz1 sz2 : Nat)
    (h1 : ∀ p ∈ font_candidates, ((env1 p).1 && (env1 p).2) = false)
    (h2 : ∃ p ∈ font_candidates, ((env2 p).1 && (env2 p).2) = true) :
    (find_font env1 sz1).1 = FontHandle.builtin_default ∧
    (find_font env1 sz1).1 ≠ (find_font env2 sz2).1 := by
  have hn : font_candidates.find? (fun p => (env1 p).1 && (env1 p).2) = none := by
    rw [List.find?_eq_none]
    intro x hx
    simp [h1 x hx]
  have hs : (font_candidates.find? (fun p => (env2 p).1 && (env2 p).2)).isSome := by
    rw [List.find?_isSome]
    obtain ⟨p, hp, hpp⟩ := h2
    exact ⟨p, hp, hpp⟩
  obtain ⟨q, hq⟩ := Option.isSome_iff_exists.mp hs
  refine ⟨by simp [find_font, hn], ?_⟩
  simp [find_font, hn, hq]

/-- Witness for C2: an environment with no font available versus an
environment where every candidate loads. -/
theorem font_fallback_distinguishable_witness :
    (find_font (fun _ => (false, false)) 80).1 = FontHandle.builtin_default ∧
    (find_font (fun _ => (false, false)) 80).1 ≠
      (find_font (fun _ => (true, true)) 80).1 :=
  font_fallback_distinguishable (fun _ => (false, false))
    (fun _ => (true, true)) 80 80 (fun _ _ => rfl)
    ⟨"/usr/share/fonts/truetype/dejavu/DejaVuSerif-Bold.ttf",
     by unfold font_candidates; exact List.mem_cons_self _ _, rfl⟩

/-- Claim C7: for template width W and measured text width Tw < W, the
horizontal offset computed by `write_text_on_image` equals (W - Tw)/2
exactly (so within any 1-pixel tolerance), satisfies x + Tw ≤ W, and
the vertical offset is taken verbatim from the configured value. -/
theorem centering_within_tolerance (W Tw y : Int) (h : Tw < W) :
    |compute_x W Tw - (((W : Int) : ℚ) - ((Tw : Int) : ℚ)) / 2| ≤ 1 ∧
    compute_x W Tw + ((Tw : Int) : ℚ) ≤ ((W : Int) : ℚ) ∧
    (write_text_position W Tw y).2 = y := by
  refine ⟨?_, ?_, rfl⟩
  · rw [compute_x, sub_self, abs_zero]
    norm_num
  · have h2 : ((Tw : Int) : ℚ) < ((W : Int) : ℚ) := by exact_mod_cast h
    rw [compute_x]
    linarith

/-- Witness for C7 at W = 100, Tw = 40, y = 580. -/
theorem centering_witness :
    |compute_x 100 40 - ((((100 : Int) : ℚ) - ((40 : Int) : ℚ)) / 2)| ≤ 1 ∧
    compute_x 100 40 + (((40 : Int) : ℚ)) ≤ (((100 : Int) : ℚ)) ∧
    (write_text_position 100 40 580).2 = 580 :=
  centering_within_tolerance 100 40 580 (by decide)

/-- Claim C9: once the SMTP connection has been opened, `send_email`
closes it on every exit path: whatever the outcomes of the TLS upgrade,
the login and the send, the session trace starts with this call's own
fresh connect, ends with quit, and contains exactly one connect and one
quit (so each recipient's send opens and closes its own connection). -/
theorem smtp_connection_closed (t l s : Bool) :
    (send_email_smtp true t l s).2.head? = some SmtpEvent.connected ∧
    (send_email_smtp true t l s).2.getLast? = some SmtpEvent.quit ∧
    (send_email_smtp true t l s).2.count SmtpEvent.quit = 1 ∧
    (send_email_smtp true t l s).2.count SmtpEvent.connected = 1 := by
  cases t <;> cases l <;> cases s <;>
    refine ⟨rfl, ?_, ?_, ?_⟩ <;> decide

/- ------------------------------------------------------------------ -/
/- Helper lemmas about containsSeq                                     -/
/- ------------------------------------------------------------------ -/

theorem containsSeq_append_of_right (a b pat : List Char)
    (h : containsSeq b pat = true) : containsSeq (a ++ b) pat = true := by
  induction a with
  | nil => exact h
  | cons x xs ih =>
    simp only [List.cons_append, containsSeq, Bool.or_eq_true]
    exact Or.inr ih

/-- Claim C10: when `body_text` is omitted, the plaintext body attached
by `send_email` is the default template, which contains the literal
two-character sequence backslash-n and (for any recipient name without a
newline of its own) no actual newline character. -/
theorem default_body_literal_backslash_n (name : List Char)
    (h : '\n' ∉ name) :
    send_email_body name none = default_body name ∧
    '\n' ∉ send_email_body name none ∧
    containsSeq (send_email_body name none) "\\n".data = true := by
  refine ⟨rfl, ?_, ?_⟩
  · show '\n' ∉ default_body name
    rw [default_body]
    intro hmem
    rcases List.mem_append.mp hmem with h1 | h2
    · rcases List.mem_append.mp h1 with h3 | h4
      · revert h3; decide
      · exact h h4
    · revert h2; decide
  · show containsSeq (default_body name) "\\n".data = true
    rw [default_body]
    exact containsSeq_append_of_right _ _ _ (by decide)

/-- Witness for C10 at the concrete recipient name "Alice". -/
theorem default_body_literal_witness :
    send_email_body "Alice".data none = default_body "Alice".data ∧
    '\n' ∉ send_email_body "Alice".data none ∧
    containsSeq (send_email_body "Alice".data none) "\\n".data = true :=
  default_body_literal_backslash_n "Alice".data (by decide)

/-- Counterexample to claim C3 as stated: header detection is not tied
to the first row of the input.  With a first row of a single cell
(skipped as invalid, contributing no recipient), the second row
("name", "a@b.c") — which the claim says must be processed as an
ordinary data row because it is not the first row — is still discarded
by the header check, so the loader returns no recipients at all. -/
theorem header_detection_counterexample :
    read_recipients c3_rows = [] ∧
    ("name".data, "a@b.c".data) ∉ read_recipients c3_rows := by
  refine ⟨by decide, ?_⟩
  intro hmem
  revert hmem
  decide

/-- Claim C3 (amended): a non-blank row is discarded as a header exactly
when no valid recipient has been collected from the earlier rows yet
(`len(items) == 0`) and one of its cells case-insensitively equals
"name" or "email"; once at least one recipient has been collected, any
later row — even one whose cells equal "name"/"email" — goes through
the ordinary data-row handling.  Row position in the input is otherwise
irrelevant. -/
theorem header_skip_depends_on_items (row : List (List Char))
    (rest : List (List (List Char))) (items : List (List Char × List Char))
    (hb : isBlankRow row = false) :
    readAux (row :: rest) items =
      if items.isEmpty && row.any isHeaderCell then readAux rest items
      else readAux rest (dataStep row items) := by
  by_cases hc : (items.isEmpty && row.any isHeaderCell) = true
  · simp only [readAux, hb, Bool.false_eq_true, if_false, hc, if_true]
  · have hc2 : (items.isEmpty && row.any isHeaderCell) = false := by
      revert hc; cases items.isEmpty && row.any isHeaderCell <;> simp
    simp only [readAux, hb, Bool.false_eq_true, if_false, hc2, dataStep]
    rcases row with _ | ⟨c1, cs⟩
    · rfl
    · rcases cs with _ | ⟨c2, cs2⟩
      · rfl
      · by_cases hv : ((pyStrip c1).isEmpty || (pyStrip c2).isEmpty) = true
        · simp only [hv, if_true]
        · have hv2 : ((pyStrip c1).isEmpty || (pyStrip c2).isEmpty) = false := by
            revert hv; cases (pyStrip c1).isEmpty || (pyStrip c2).isEmpty <;> simp
          simp only [hv2, Bool.false_eq_true, if_false]

/-- Witness for the amended C3: after one collected recipient, a row
whose first cell is "name" is kept as a data row, not discarded. -/
theorem header_skip_witness :
    readAux (["name".data, "x@y.z".data] :: []) [("a".data, "b@c.d".data)] =
      if ([("a".data, "b@c.d".data)] : List (List Char × List Char)).isEmpty &&
          (["name".data, "x@y.z".data] : List (List Char)).any isHeaderCell then
        readAux [] [("a".data, "b@c.d".data)]
      else readAux [] (dataStep ["name".data, "x@y.z".data]
        [("a".data, "b@c.d".data)]) :=
  header_skip_depends_on_items ["name".data, "x@y.z".data] []
    [("a".data, "b@c.d".data)] (by decide)

/-- Counterexample to claim C4 as stated: a run whose loader returns an
empty recipient set exits with status 0, not with a non-zero code as the
claim requires. -/
theorem empty_recipients_exit_zero :
    main_run (Except.ok cfg0) (Except.ok []) true (fun _ => (true, true)) =
      (0, 0, 0) := rfl

/-- Claim C4 (amended): the exit status of `main` is non-zero (namely 1)
exactly when config loading fails or reading the recipient file fails;
an empty recipient set, a declined confirmation, and a completed batch —
whatever the per-recipient outcomes, including runs with delivery
failures — all exit with status 0. -/
theorem exit_code_characterization (cfg : Except (List Char) Config)
    (recips : Except (List Char) (List (List Char × List Char)))
    (proceed : Bool) (envs : (List Char × List Char) → Bool × Bool) :
    (main_run cfg recips proceed envs).1 =
      if isErr cfg || isErr recips then 1 else 0 := by
  rcases cfg with e | c
  · rfl
  · rcases recips with e | rs
    · rfl
    · simp only [main_run, isErr, Bool.or_self, Bool.false_eq_true, if_false]
      split
      · rfl
      · split
        · rfl
        · rfl

end CertMailer
